import Mathlib

/-!
A shallow embedding of the FlightRadar24 CLI tester (`fr24_tester.py` and
`fr24_tester_backup.py`).  The single interesting function of the repository,
`fetch_aircraft_data`, is modelled as a pure function from its arguments and
the outcome of the one HTTP GET it performs to the dictionary (envelope) it
returns.  Python `Optional[str]` arguments become `Option String`, with Python
truthiness (`None` and `""` are falsy) modelled explicitly; the Python `int`
limit becomes `Int`; the decoded JSON body is modelled as an optional
`aircraft` list of records plus the remaining opaque fields; the two caught
exception classes (`requests.exceptions.RequestException` raised by the
request / `raise_for_status`, and `json.JSONDecodeError` raised when the body
is not valid JSON) become the non-`ok` constructors of `HttpOutcome`.
-/

namespace FR24

/-- An aircraft record: an opaque mapping of fields, of which the program
inspects only `aircraft_type` and `registration` via `dict.get`. -/
structure Aircraft where
  fields : List (String × String)
deriving DecidableEq

/-- Python `dict.get`: the value at the key, or `None` when absent. -/
def Aircraft.get (a : Aircraft) (k : String) : Option String :=
  (a.fields.find? (fun p => p.1 == k)).map (fun p => p.2)

/-- Python truthiness of an `Optional[str]`: `None` and the empty string
are falsy. -/
def optTruthy : Option String → Bool
  | none => false
  | some s => !s.isEmpty

/-- The decoded JSON response body: the `aircraft` list when the key is
present, plus the remaining fields, carried opaquely. -/
structure ResponseBody where
  aircraftField : Option (List Aircraft)
  rest : List (String × String)
deriving DecidableEq

/-- The outcome of the single HTTP GET inside the `try` block:
`transportError` for `requests.exceptions.RequestException` (connection
error, timeout, or `raise_for_status` on a non-2xx response), `badJson` for
`json.JSONDecodeError` from `response.json()`, `ok` for a decoded body. -/
inductive HttpOutcome where
  | transportError (msg : String)
  | badJson (msg : String)
  | ok (data : ResponseBody)
deriving DecidableEq

/-- The assembled HTTP request: URL, header dict, query params, timeout. -/
structure Request where
  url : String
  headers : List (String × String)
  params : List (String × String)
  timeout : Nat
deriving DecidableEq

/-- The returned dictionary, with `none` for an absent key.  The success
shape carries `count`, `aircraft`, `raw_response`; the failure shape carries
`message`; `fr24_tester.py` always adds `api_type`, the backup never does. -/
structure Envelope where
  status : String
  count : Option Nat
  aircraft : Option (List Aircraft)
  raw_response : Option ResponseBody
  message : Option String
  api_type : Option String
deriving DecidableEq

/-- The bounds entry of the params dict (fr24_tester.py:83): the supplied
string when truthy, else the worldwide default. -/
def boundsParam : Option String → String
  | some s => if s.isEmpty then "90,-180,-90,180" else s
  | none => "90,-180,-90,180"

/-- The query-parameter dict built at fr24_tester.py:82-93 (identical in the
backup at lines 54-65). -/
def buildParams (bounds : Option String) : List (String × String) :=
  [("bounds", boundsParam bounds),
   ("faa", "1"), ("mlat", "1"), ("flarm", "1"), ("adsb", "1"),
   ("gnd", "1"), ("air", "1"), ("vehicles", "1"), ("estimated", "1"),
   ("stats", "1")]

/-- Endpoint/header selection (fr24_tester.py:68-79) together with the
request of line 97: premium URL and bearer header when `api_key` is truthy,
public feed URL and empty headers otherwise, timeout 30 in both cases. -/
def buildRequest (bounds api_key : Option String) : Request :=
  if optTruthy api_key then
    { url := "https://api.flightradar24.com/common/v1/search.json"
      headers := [("Authorization", "Bearer " ++ api_key.getD ""),
                  ("Content-Type", "application/json")]
      params := buildParams bounds
      timeout := 30 }
  else
    { url := "https://data-live.flightradar24.com/zones/fcgi/feed.js"
      headers := []
      params := buildParams bounds
      timeout := 30 }

/-- The two `continue` guards of the loop body (fr24_tester.py:108-111):
a record is kept iff it passes both. -/
def keepAircraft (aircraft_type registration : Option String) (a : Aircraft) : Bool :=
  !(optTruthy aircraft_type && (a.get "aircraft_type" != aircraft_type)) &&
  !(optTruthy registration && (a.get "registration" != registration))

/-- The for loop over the aircraft list of the decoded body
(fr24_tester.py:106-117):
append each record passing the filters to the accumulator and `break` once
the kept length reaches the limit. -/
def filterAircraft (aircraft_type registration : Option String) (limit : Int) :
    List Aircraft → List Aircraft → List Aircraft
  | [], acc => acc
  | a :: restL, acc =>
    if keepAircraft aircraft_type registration a then
      let acc2 := acc ++ [a]
      if limit ≤ (acc2.length : Int) then acc2
      else filterAircraft aircraft_type registration limit restL acc2
    else filterAircraft aircraft_type registration limit restL acc

/-- The api_type tag (fr24_tester.py:124): premium when api_key is truthy,
else public. -/
def apiTypeOf (api_key : Option String) : String :=
  if optTruthy api_key then "premium" else "public"

/-- `fetch_aircraft_data` of fr24_tester.py (lines 48-138), as a function of
its arguments and of the outcome of the single HTTP GET it performs. -/
def fetch_aircraft_data (aircraft_type registration bounds : Option String)
    (limit : Int) (api_key : Option String) (outcome : HttpOutcome) : Envelope :=
  match outcome with
  | .transportError msg =>
      { status := "error", count := none, aircraft := none, raw_response := none
        message := some ("API request failed: " ++ msg)
        api_type := some (apiTypeOf api_key) }
  | .badJson msg =>
      { status := "error", count := none, aircraft := none, raw_response := none
        message := some ("Failed to parse JSON response: " ++ msg)
        api_type := some (apiTypeOf api_key) }
  | .ok data =>
      let aircraft_list :=
        match data.aircraftField with
        | some l => filterAircraft aircraft_type registration limit l []
        | none => []
      { status := "success", count := some aircraft_list.length
        aircraft := some aircraft_list, raw_response := some data
        message := none, api_type := some (apiTypeOf api_key) }

/-- The filter guards of fr24_tester_backup.py:80-83, transcribed from that
file (textually identical to the guards of the main file). -/
def keepAircraftBackup (aircraft_type registration : Option String) (a : Aircraft) : Bool :=
  !(optTruthy aircraft_type && (a.get "aircraft_type" != aircraft_type)) &&
  !(optTruthy registration && (a.get "registration" != registration))

/-- The filtering loop of fr24_tester_backup.py:78-89, transcribed from that
file. -/
def filterAircraftBackup (aircraft_type registration : Option String) (limit : Int) :
    List Aircraft → List Aircraft → List Aircraft
  | [], acc => acc
  | a :: restL, acc =>
    if keepAircraftBackup aircraft_type registration a then
      let acc2 := acc ++ [a]
      if limit ≤ (acc2.length : Int) then acc2
      else filterAircraftBackup aircraft_type registration limit restL acc2
    else filterAircraftBackup aircraft_type registration limit restL acc

/-- `fetch_aircraft_data` of fr24_tester_backup.py (lines 32-107): no
`api_key` parameter, public URL only, and no `api_type` key in any envelope. -/
def fetch_aircraft_data_backup (aircraft_type registration bounds : Option String)
    (limit : Int) (outcome : HttpOutcome) : Envelope :=
  match outcome with
  | .transportError msg =>
      { status := "error", count := none, aircraft := none, raw_response := none
        message := some ("API request failed: " ++ msg)
        api_type := none }
  | .badJson msg =>
      { status := "error", count := none, aircraft := none, raw_response := none
        message := some ("Failed to parse JSON response: " ++ msg)
        api_type := none }
  | .ok data =>
      let aircraft_list :=
        match data.aircraftField with
        | some l => filterAircraftBackup aircraft_type registration limit l []
        | none => []
      { status := "success", count := some aircraft_list.length
        aircraft := some aircraft_list, raw_response := some data
        message := none, api_type := none }

/-- Concrete record used by witnesses: the spec §8 example record with
type C17, registration A. -/
def acA : Aircraft := ⟨[("aircraft_type", "C17"), ("registration", "A")]⟩

/-- Spec §8 example record with type B2, registration B. -/
def acB : Aircraft := ⟨[("aircraft_type", "B2"), ("registration", "B")]⟩

/-- Spec §8 example record with type C17, registration C. -/
def acC : Aircraft := ⟨[("aircraft_type", "C17"), ("registration", "C")]⟩

/-- Spec §8 example record with type C17, registration D. -/
def acD : Aircraft := ⟨[("aircraft_type", "C17"), ("registration", "D")]⟩

/-- The loop of fr24_tester.py:106-117 computes exactly the first `n`
records passing the filters, in input order, whenever the accumulator is
still short of a positive limit `n`. -/
lemma filterAircraft_eq_take (aircraft_type registration : Option String) (n : Nat) :
    ∀ (l acc : List Aircraft), acc.length < n →
      filterAircraft aircraft_type registration (n : Int) l acc =
        acc ++ (l.filter (keepAircraft aircraft_type registration)).take (n - acc.length) := by
  intro l
  induction l with
  | nil => intro acc _; simp [filterAircraft]
  | cons a restL ih =>
    intro acc hacc
    by_cases hk : keepAircraft aircraft_type registration a
    · have hcond : ((n : Int) ≤ (((acc ++ [a]).length : Nat) : Int)) ↔ n ≤ acc.length + 1 := by
        simp only [List.length_append, List.length_cons, List.length_nil]
        omega
      by_cases hstop : n ≤ acc.length + 1
      · have h1 : n - acc.length = 1 := by omega
        simp only [filterAircraft, hk, if_true]
        rw [if_pos (hcond.mpr hstop)]
        simp [List.filter_cons, hk, h1]
      · have hlt : (acc ++ [a]).length < n := by
          simp only [List.length_append, List.length_cons, List.length_nil]; omega
        have hrec := ih (acc ++ [a]) hlt
        have h2 : n - acc.length = (n - (acc.length + 1)) + 1 := by omega
        simp only [filterAircraft, hk, if_true]
        rw [if_neg (fun hc => hstop (hcond.mp hc)), hrec, h2]
        simp [List.filter_cons, hk, List.take_succ_cons]
    · have hrec := ih acc hacc
      simp [filterAircraft, hk, hrec, List.filter_cons]

/-- An empty-string type filter behaves like an absent one on every record,
whatever the registration filter is. -/
lemma keepAircraft_empty_type_eq (registration : Option String) (a : Aircraft) :
    keepAircraft (some "") registration a = keepAircraft none registration a := rfl

/-- An empty-string registration filter behaves like an absent one on every
record, whatever the type filter is. -/
lemma keepAircraft_empty_reg_eq (aircraft_type : Option String) (a : Aircraft) :
    keepAircraft aircraft_type (some "") a = keepAircraft aircraft_type none a := rfl

/-- Two filter pairs that keep the same records drive the loop to the same
kept list. -/
lemma filterAircraft_congr (at1 reg1 at2 reg2 : Option String) (limit : Int)
    (hk : ∀ a, keepAircraft at1 reg1 a = keepAircraft at2 reg2 a) :
    ∀ (l acc : List Aircraft),
      filterAircraft at1 reg1 limit l acc =
        filterAircraft at2 reg2 limit l acc := by
  intro l
  induction l with
  | nil => intro acc; rfl
  | cons a restL ih =>
    intro acc
    simp only [filterAircraft, hk, ih]

/-- The backup filter guards are the same function as the main ones. -/
lemma keepAircraftBackup_eq : keepAircraftBackup = keepAircraft := rfl

/-- The backup loop computes the same list as the main loop. -/
lemma filterAircraftBackup_eq (aircraft_type registration : Option String) (limit : Int) :
    ∀ (l acc : List Aircraft),
      filterAircraftBackup aircraft_type registration limit l acc =
        filterAircraft aircraft_type registration limit l acc := by
  intro l
  induction l with
  | nil => intro acc; rfl
  | cons a restL ih =>
    intro acc
    simp only [filterAircraftBackup, filterAircraft, keepAircraftBackup_eq, ih]

/-- Claim C1 (amended to positive limits): for every decoded body with an
aircraft list, every filter combination and every limit ≥ 1, the kept list of
fetch_aircraft_data contains only records whose aircraft_type field equals
the type filter (when supplied) and whose registration field equals the
registration filter (when supplied), is a sublist of the input list
(preserving relative order), and has length at most the limit. -/
theorem claim1_kept_filtered_ordered_bounded
    (aircraft_type registration bounds api_key : Option String) (limit : Int)
    (hl : 1 ≤ limit) (al : List Aircraft) (restFields : List (String × String)) :
    ∃ kept,
      (fetch_aircraft_data aircraft_type registration bounds limit api_key
          (.ok ⟨some al, restFields⟩)).aircraft = some kept ∧
      (∀ a ∈ kept,
        (optTruthy aircraft_type = true → a.get "aircraft_type" = aircraft_type) ∧
        (optTruthy registration = true → a.get "registration" = registration)) ∧
      kept.Sublist al ∧ (kept.length : Int) ≤ limit := by
  have hn : ([] : List Aircraft).length < limit.toNat := by
    simp only [List.length_nil]; omega
  have hmain := filterAircraft_eq_take aircraft_type registration limit.toNat al [] hn
  have hcast : ((limit.toNat : Nat) : Int) = limit := Int.toNat_of_nonneg (by omega)
  rw [hcast] at hmain
  refine ⟨(al.filter (keepAircraft aircraft_type registration)).take limit.toNat,
    ?_, ?_, ?_, ?_⟩
  · simp [fetch_aircraft_data, hmain]
  · intro a ha
    have haf : a ∈ al.filter (keepAircraft aircraft_type registration) :=
      List.take_subset _ _ ha
    have hkeep : keepAircraft aircraft_type registration a = true :=
      (List.mem_filter.mp haf).2
    constructor
    · intro ht
      by_contra hne
      have hb : (a.get "aircraft_type" != aircraft_type) = true := bne_iff_ne.mpr hne
      simp [keepAircraft, ht, hb] at hkeep
    · intro ht
      by_contra hne
      have hb : (a.get "registration" != registration) = true := bne_iff_ne.mpr hne
      simp [keepAircraft, ht, hb] at hkeep
  · exact (List.take_sublist _ _).trans (List.filter_sublist al)
  · have hlen := List.length_take_le limit.toNat
      (al.filter (keepAircraft aircraft_type registration))
    omega

/-- Witness for C1: the spec §8 example, limit 2 and type filter C17 over the
four example records. -/
theorem claim1_witness :
    ∃ kept,
      (fetch_aircraft_data (some "C17") none none 2 none
          (.ok ⟨some [acA, acB, acC, acD], []⟩)).aircraft = some kept ∧
      (∀ a ∈ kept,
        (optTruthy (some "C17") = true → a.get "aircraft_type" = some "C17") ∧
        (optTruthy (none : Option String) = true → a.get "registration" = none)) ∧
      kept.Sublist [acA, acB, acC, acD] ∧ (kept.length : Int) ≤ 2 :=
  claim1_kept_filtered_ordered_bounded (some "C17") none none none 2 (by decide)
    [acA, acB, acC, acD] []

/-- Counterexample to C1 as stated for every integer limit: at limit 0 the
loop appends the first matching record before testing the cap, so the kept
list has length 1 > 0. -/
theorem claim1_limit_zero_counterexample :
    (fetch_aircraft_data none none none 0 none
        (.ok ⟨some [acA], []⟩)).aircraft = some [acA] ∧
    ¬ ((([acA] : List Aircraft).length : Int) ≤ 0) :=
  ⟨rfl, by decide⟩

/-- Claim C2 (amended to positive limits): for every limit ≥ 1, the kept
list equals the first limit records passing the filters, in input order
(the loop stops as soon as the kept count reaches the limit). -/
theorem claim2_kept_eq_first_limit_matches
    (aircraft_type registration bounds api_key : Option String) (limit : Int)
    (hl : 1 ≤ limit) (al : List Aircraft) (restFields : List (String × String)) :
    (fetch_aircraft_data aircraft_type registration bounds limit api_key
        (.ok ⟨some al, restFields⟩)).aircraft =
      some ((al.filter (keepAircraft aircraft_type registration)).take limit.toNat) := by
  have hn : ([] : List Aircraft).length < limit.toNat := by
    simp only [List.length_nil]; omega
  have hmain := filterAircraft_eq_take aircraft_type registration limit.toNat al [] hn
  have hcast : ((limit.toNat : Nat) : Int) = limit := Int.toNat_of_nonneg (by omega)
  rw [hcast] at hmain
  simp [fetch_aircraft_data, hmain]

/-- Witness for C2: the spec §8 example, limit 2 and type filter C17. -/
theorem claim2_witness :
    (fetch_aircraft_data (some "C17") none none 2 none
        (.ok ⟨some [acA, acB, acC, acD], []⟩)).aircraft =
      some ((([acA, acB, acC, acD] : List Aircraft).filter
          (keepAircraft (some "C17") none)).take (2 : Int).toNat) :=
  claim2_kept_eq_first_limit_matches (some "C17") none none none 2 (by decide)
    [acA, acB, acC, acD] []

/-- Counterexample to C2 as stated for every integer limit: at limit 0 the
kept list is one record, not the first 0 matches. -/
theorem claim2_limit_zero_counterexample :
    ¬ ((fetch_aircraft_data none none none 0 none
          (.ok ⟨some [acB], []⟩)).aircraft =
        some ((([acB] : List Aircraft).filter
            (keepAircraft none none)).take (0 : Int).toNat)) := by
  decide

/-- Claim C3: every transport-layer failure (RequestException: connection
error, timeout, or non-2xx status via raise_for_status) yields an envelope
with status error, a descriptive request-failure message, and no aircraft
and no count keys, returned normally. -/
theorem claim3_transport_failure_envelope
    (aircraft_type registration bounds api_key : Option String) (limit : Int)
    (msg : String) :
    (fetch_aircraft_data aircraft_type registration bounds limit api_key
        (.transportError msg)).status = "error" ∧
    (fetch_aircraft_data aircraft_type registration bounds limit api_key
        (.transportError msg)).message = some ("API request failed: " ++ msg) ∧
    (fetch_aircraft_data aircraft_type registration bounds limit api_key
        (.transportError msg)).count = none ∧
    (fetch_aircraft_data aircraft_type registration bounds limit api_key
        (.transportError msg)).aircraft = none :=
  ⟨rfl, rfl, rfl, rfl⟩

/-- Claim C4: a response body that is not parseable as JSON yields an
envelope with status error and a message describing a parse failure, with
no aircraft and no count keys, rather than an exception. -/
theorem claim4_parse_failure_envelope
    (aircraft_type registration bounds api_key : Option String) (limit : Int)
    (msg : String) :
    (fetch_aircraft_data aircraft_type registration bounds limit api_key
        (.badJson msg)).status = "error" ∧
    (fetch_aircraft_data aircraft_type registration bounds limit api_key
        (.badJson msg)).message =
      some ("Failed to parse JSON response: " ++ msg) ∧
    (fetch_aircraft_data aircraft_type registration bounds limit api_key
        (.badJson msg)).count = none ∧
    (fetch_aircraft_data aircraft_type registration bounds limit api_key
        (.badJson msg)).aircraft = none :=
  ⟨rfl, rfl, rfl, rfl⟩

/-- Claim C5: a truthy credential selects the premium URL, attaches the
bearer header and tags every envelope api_type premium; no credential
selects the public feed URL with empty headers and tags api_type public.
The tag is present in success and failure envelopes alike (the outcome is
universally quantified). -/
theorem claim5_endpoint_selection
    (aircraft_type registration bounds : Option String) (limit : Int)
    (outcome : HttpOutcome) (k : String) (hk : k.isEmpty = false) :
    ((buildRequest bounds (some k)).url =
        "https://api.flightradar24.com/common/v1/search.json" ∧
      ("Authorization", "Bearer " ++ k) ∈ (buildRequest bounds (some k)).headers ∧
      (fetch_aircraft_data aircraft_type registration bounds limit (some k)
          outcome).api_type = some "premium") ∧
    ((buildRequest bounds none).url =
        "https://data-live.flightradar24.com/zones/fcgi/feed.js" ∧
      (buildRequest bounds none).headers = [] ∧
      (fetch_aircraft_data aircraft_type registration bounds limit none
          outcome).api_type = some "public") := by
  have ht : optTruthy (some k) = true := by simp [optTruthy, hk]
  refine ⟨⟨?_, ?_, ?_⟩, ?_, ?_, ?_⟩
  · simp [buildRequest, ht]
  · simp [buildRequest, ht]
  · cases outcome <;> simp [fetch_aircraft_data, apiTypeOf, ht]
  · rfl
  · rfl
  · cases outcome <;> rfl

/-- Witness for C5: credential TESTKEY against a transport failure. -/
theorem claim5_witness :
    ((buildRequest none (some "TESTKEY")).url =
        "https://api.flightradar24.com/common/v1/search.json" ∧
      ("Authorization", "Bearer " ++ "TESTKEY") ∈
        (buildRequest none (some "TESTKEY")).headers ∧
      (fetch_aircraft_data none none none 50 (some "TESTKEY")
          (.transportError "timed out")).api_type = some "premium") ∧
    ((buildRequest none none).url =
        "https://data-live.flightradar24.com/zones/fcgi/feed.js" ∧
      (buildRequest none none).headers = [] ∧
      (fetch_aircraft_data none none none 50 none
          (.transportError "timed out")).api_type = some "public") :=
  claim5_endpoint_selection none none none 50 (.transportError "timed out")
    "TESTKEY" (by decide)

/-- Claim C6: the query parameters are exactly the bounds entry followed by
the nine fixed flags all set to the string 1, regardless of endpoint; a
truthy supplied bounds string passes through literally and an omitted one
becomes the worldwide default. -/
theorem claim6_query_params_exact (bounds api_key : Option String)
    (s : String) (hs : s.isEmpty = false) :
    (buildRequest bounds api_key).params =
      [("bounds", boundsParam bounds),
       ("faa", "1"), ("mlat", "1"), ("flarm", "1"), ("adsb", "1"),
       ("gnd", "1"), ("air", "1"), ("vehicles", "1"), ("estimated", "1"),
       ("stats", "1")] ∧
    boundsParam (some s) = s ∧
    boundsParam none = "90,-180,-90,180" := by
  refine ⟨?_, ?_, rfl⟩
  · by_cases h : optTruthy api_key <;> simp [buildRequest, h, buildParams]
  · simp [boundsParam, hs]

/-- Witness for C6: an explicit four-number bounds string, public endpoint. -/
theorem claim6_witness :
    (buildRequest (some "30,-120,40,-110") none).params =
      [("bounds", boundsParam (some "30,-120,40,-110")),
       ("faa", "1"), ("mlat", "1"), ("flarm", "1"), ("adsb", "1"),
       ("gnd", "1"), ("air", "1"), ("vehicles", "1"), ("estimated", "1"),
       ("stats", "1")] ∧
    boundsParam (some "30,-120,40,-110") = "30,-120,40,-110" ∧
    boundsParam none = "90,-180,-90,180" :=
  claim6_query_params_exact (some "30,-120,40,-110") none "30,-120,40,-110"
    (by decide)

/-- Claim C7 (amended to positive limits): with both filters omitted and
limit ≥ 1, the kept list is the first limit input records unchanged and in
order (the whole list when shorter), and count is its length. -/
theorem claim7_no_filters_first_limit
    (bounds api_key : Option String) (limit : Int) (hl : 1 ≤ limit)
    (al : List Aircraft) (restFields : List (String × String)) :
    (fetch_aircraft_data none none bounds limit api_key
        (.ok ⟨some al, restFields⟩)).aircraft = some (al.take limit.toNat) ∧
    (fetch_aircraft_data none none bounds limit api_key
        (.ok ⟨some al, restFields⟩)).count = some (al.take limit.toNat).length := by
  have hfilter : al.filter (keepAircraft none none) = al :=
    List.filter_eq_self.mpr (fun a _ => rfl)
  have hn : ([] : List Aircraft).length < limit.toNat := by
    simp only [List.length_nil]; omega
  have hmain := filterAircraft_eq_take none none limit.toNat al [] hn
  have hcast : ((limit.toNat : Nat) : Int) = limit := Int.toNat_of_nonneg (by omega)
  rw [hcast, hfilter] at hmain
  constructor
  · simp [fetch_aircraft_data, hmain]
  · simp [fetch_aircraft_data, hmain]

/-- Witness for C7: three records, no filters, limit 2. -/
theorem claim7_witness :
    (fetch_aircraft_data none none none 2 none
        (.ok ⟨some [acA, acB, acC], []⟩)).aircraft =
      some (([acA, acB, acC] : List Aircraft).take (2 : Int).toNat) ∧
    (fetch_aircraft_data none none none 2 none
        (.ok ⟨some [acA, acB, acC], []⟩)).count =
      some (([acA, acB, acC] : List Aircraft).take (2 : Int).toNat).length :=
  claim7_no_filters_first_limit none none 2 (by decide) [acA, acB, acC] []

/-- Counterexample to C7 as stated for every integer limit: at limit 0 the
kept list is one record, not the first 0 input records. -/
theorem claim7_limit_zero_counterexample :
    ¬ ((fetch_aircraft_data none none none 0 none
          (.ok ⟨some [acC], []⟩)).aircraft =
        some (([acC] : List Aircraft).take (0 : Int).toNat)) := by
  decide

/-- Claim C8: for every input and every upstream outcome, the backup
envelope agrees with the credential-less main envelope on status, count,
aircraft, raw_response and message; the main envelope additionally carries
only api_type (public), which the backup omits. -/
theorem claim8_backup_subset_of_main
    (aircraft_type registration bounds : Option String) (limit : Int)
    (outcome : HttpOutcome) :
    (fetch_aircraft_data_backup aircraft_type registration bounds limit
        outcome).status =
      (fetch_aircraft_data aircraft_type registration bounds limit none
        outcome).status ∧
    (fetch_aircraft_data_backup aircraft_type registration bounds limit
        outcome).count =
      (fetch_aircraft_data aircraft_type registration bounds limit none
        outcome).count ∧
    (fetch_aircraft_data_backup aircraft_type registration bounds limit
        outcome).aircraft =
      (fetch_aircraft_data aircraft_type registration bounds limit none
        outcome).aircraft ∧
    (fetch_aircraft_data_backup aircraft_type registration bounds limit
        outcome).raw_response =
      (fetch_aircraft_data aircraft_type registration bounds limit none
        outcome).raw_response ∧
    (fetch_aircraft_data_backup aircraft_type registration bounds limit
        outcome).message =
      (fetch_aircraft_data aircraft_type registration bounds limit none
        outcome).message ∧
    (fetch_aircraft_data_backup aircraft_type registration bounds limit
        outcome).api_type = none ∧
    (fetch_aircraft_data aircraft_type registration bounds limit none
        outcome).api_type = some "public" := by
  cases outcome with
  | transportError msg => exact ⟨rfl, rfl, rfl, rfl, rfl, rfl, rfl⟩
  | badJson msg => exact ⟨rfl, rfl, rfl, rfl, rfl, rfl, rfl⟩
  | ok data =>
    obtain ⟨af, restf⟩ := data
    cases af with
    | none => exact ⟨rfl, rfl, rfl, rfl, rfl, rfl, rfl⟩
    | some l =>
      have h := filterAircraftBackup_eq aircraft_type registration limit l []
      refine ⟨rfl, ?_, ?_, rfl, rfl, rfl, rfl⟩ <;>
        simp [fetch_aircraft_data, fetch_aircraft_data_backup, h]

/-- Claim C9: in every call, each empty-string optional argument behaves
exactly like an omitted one, the other arguments being arbitrary: an
empty-string aircraft_type or registration filter yields the same envelope
as the omitted filter (it excludes no record), an empty-string bounds
yields the same envelope and the same request (the worldwide default
bounding box), and an empty-string api_key yields the same envelope and
request as no credential, with api_type reported public. -/
theorem claim9_empty_string_like_omitted
    (aircraft_type registration bounds api_key : Option String) (limit : Int)
    (outcome : HttpOutcome) :
    (fetch_aircraft_data (some "") registration bounds limit api_key outcome =
      fetch_aircraft_data none registration bounds limit api_key outcome) ∧
    (fetch_aircraft_data aircraft_type (some "") bounds limit api_key outcome =
      fetch_aircraft_data aircraft_type none bounds limit api_key outcome) ∧
    (fetch_aircraft_data aircraft_type registration (some "") limit api_key
        outcome =
      fetch_aircraft_data aircraft_type registration none limit api_key
        outcome) ∧
    (buildRequest (some "") api_key = buildRequest none api_key) ∧
    (fetch_aircraft_data aircraft_type registration bounds limit (some "")
        outcome =
      fetch_aircraft_data aircraft_type registration bounds limit none
        outcome) ∧
    (buildRequest bounds (some "") = buildRequest bounds none) ∧
    ((fetch_aircraft_data aircraft_type registration bounds limit (some "")
        outcome).api_type = some "public") := by
  refine ⟨?_, ?_, ?_, rfl, ?_, rfl, ?_⟩
  · cases outcome with
    | transportError msg => rfl
    | badJson msg => rfl
    | ok data =>
      obtain ⟨af, restf⟩ := data
      cases af with
      | none => rfl
      | some l =>
        have h := filterAircraft_congr (some "") registration none registration
          limit (keepAircraft_empty_type_eq registration) l []
        simp [fetch_aircraft_data, h]
  · cases outcome with
    | transportError msg => rfl
    | badJson msg => rfl
    | ok data =>
      obtain ⟨af, restf⟩ := data
      cases af with
      | none => rfl
      | some l =>
        have h := filterAircraft_congr aircraft_type (some "") aircraft_type none
          limit (keepAircraft_empty_reg_eq aircraft_type) l []
        simp [fetch_aircraft_data, h]
  · cases outcome <;> rfl
  · cases outcome <;> rfl
  · cases outcome <;> rfl

/-- Claim C10: a decoded body lacking the aircraft key yields a success
envelope with count 0, empty aircraft list and the full decoded body as
raw_response; the missing key is not an error. -/
theorem claim10_missing_aircraft_key_success
    (aircraft_type registration bounds api_key : Option String) (limit : Int)
    (restFields : List (String × String)) :
    (fetch_aircraft_data aircraft_type registration bounds limit api_key
        (.ok ⟨none, restFields⟩)).status = "success" ∧
    (fetch_aircraft_data aircraft_type registration bounds limit api_key
        (.ok ⟨none, restFields⟩)).count = some 0 ∧
    (fetch_aircraft_data aircraft_type registration bounds limit api_key
        (.ok ⟨none, restFields⟩)).aircraft = some [] ∧
    (fetch_aircraft_data aircraft_type registration bounds limit api_key
        (.ok ⟨none, restFields⟩)).raw_response = some ⟨none, restFields⟩ :=
  ⟨rfl, rfl, rfl, rfl⟩

end FR24
